import Mathlib

/-!
Verification of the cache-keyed fetch/render/persist pipeline of the
Earth Engine DEM viewer (`EarthEngineService`).

The development shallowly embeds the service: `crypto.createHash('sha256')`
is embedded as an executable SHA-256 over UTF-8 bytes, and each service
method becomes an explicit state-passing function over `ServiceState`,
with the external provider and network modelled by an `Env` record of
oracles.  JS exceptions become `Except` results paired with the state at
the point of the throw (mutations before a throw persist, as in JS).
-/

namespace EE

/-! ### SHA-256 (the `createHash('sha256').update(data).digest('hex')` call)

A direct executable embedding of FIPS 180-4 SHA-256 over `Nat`, with
32-bit arithmetic performed modulo `2 ^ 32`.  Validated below against the
standard test vectors. -/

def M32 : Nat := 4294967296

def add32 (a b : Nat) : Nat := (a + b) % M32

def rotr32 (x n : Nat) : Nat := ((x >>> n) ||| (x <<< (32 - n))) % M32

def xor3 (a b c : Nat) : Nat := Nat.xor (Nat.xor a b) c

def bigSigma0 (x : Nat) : Nat := xor3 (rotr32 x 2) (rotr32 x 13) (rotr32 x 22)

def bigSigma1 (x : Nat) : Nat := xor3 (rotr32 x 6) (rotr32 x 11) (rotr32 x 25)

def smallSigma0 (x : Nat) : Nat := xor3 (rotr32 x 7) (rotr32 x 18) (x >>> 3)

def smallSigma1 (x : Nat) : Nat := xor3 (rotr32 x 17) (rotr32 x 19) (x >>> 10)

def ch32 (x y z : Nat) : Nat := Nat.xor (Nat.land x y) (Nat.land (Nat.xor x (M32 - 1)) z)

def maj32 (x y z : Nat) : Nat := xor3 (Nat.land x y) (Nat.land x z) (Nat.land y z)

/-- The 64 round constants of FIPS 180-4 §4.2.2, written in decimal. -/
def roundK : List Nat :=
  [1116352408, 1899447441, 3049323471, 3921009573,
   961987163, 1508970993, 2453635748, 2870763221,
   3624381080, 310598401, 607225278, 1426881987,
   1925078388, 2162078206, 2614888103, 3248222580,
   3835390401, 4022224774, 264347078, 604807628,
   770255983, 1249150122, 1555081692, 1996064986,
   2554220882, 2821834349, 2952996808, 3210313671,
   3336571891, 3584528711, 113926993, 338241895,
   666307205, 773529912, 1294757372, 1396182291,
   1695183700, 1986661051, 2177026350, 2456956037,
   2730485921, 2820302411, 3259730800, 3345764771,
   3516065817, 3600352804, 4094571909, 275423344,
   430227734, 506948616, 659060556, 883997877,
   958139571, 1322822218, 1537002063, 1747873779,
   1955562222, 2024104815, 2227730452, 2361852424,
   2428436474, 2756734187, 3204031479, 3329325298]

structure Digest where
  a : Nat
  b : Nat
  c : Nat
  d : Nat
  e : Nat
  f : Nat
  g : Nat
  h : Nat
deriving Repr, DecidableEq

/-- The initial hash value of FIPS 180-4 §5.3.3, written in decimal. -/
def hInit : Digest :=
  ⟨1779033703, 3144134277, 1013904242, 2773480762,
   1359893119, 2600822924, 528734635, 1541459225⟩

/-- Big-endian 32-bit words of a byte list (length a multiple of 4). -/
def wordsOf : List Nat → List Nat
  | b0 :: b1 :: b2 :: b3 :: rest => (((b0 * 256 + b1) * 256 + b2) * 256 + b3) :: wordsOf rest
  | _ => []

/-- One message-schedule extension step appending `w[n]` for `n = ws.length`. -/
def extendStep (ws : List Nat) : List Nat :=
  let n := ws.length
  let w16 := ws.getD (n - 16) 0
  let w15 := ws.getD (n - 15) 0
  let w7 := ws.getD (n - 7) 0
  let w2 := ws.getD (n - 2) 0
  ws ++ [(w16 + smallSigma0 w15 + w7 + smallSigma1 w2) % M32]

def extendN : Nat → List Nat → List Nat
  | 0, ws => ws
  | n + 1, ws => extendN n (extendStep ws)

def schedule (chunkWords : List Nat) : List Nat := extendN 48 chunkWords

def compressRound (st : Digest) (kw : Nat × Nat) : Digest :=
  let t1 := (st.h + bigSigma1 st.e + ch32 st.e st.f st.g + kw.1 + kw.2) % M32
  let t2 := (bigSigma0 st.a + maj32 st.a st.b st.c) % M32
  ⟨(t1 + t2) % M32, st.a, st.b, st.c, (st.d + t1) % M32, st.e, st.f, st.g⟩

def addDigest (x y : Digest) : Digest :=
  ⟨add32 x.a y.a, add32 x.b y.b, add32 x.c y.c, add32 x.d y.d,
   add32 x.e y.e, add32 x.f y.f, add32 x.g y.g, add32 x.h y.h⟩

def compressChunk (st : Digest) (chunk : List Nat) : Digest :=
  let ws := schedule (wordsOf chunk)
  addDigest st ((roundK.zip ws).foldl compressRound st)

/-- The eight big-endian bytes of a 64-bit length field. -/
def beBytes8 (n : Nat) : List Nat :=
  [n >>> 56, n >>> 48, n >>> 40, n >>> 32, n >>> 24, n >>> 16, n >>> 8, n].map (· % 256)

/-- FIPS 180-4 padding: append `0x80`, zeros to 56 mod 64, then the bit length. -/
def padBytes (msg : List Nat) : List Nat :=
  let padZeros := (64 - ((msg.length + 9) % 64)) % 64
  msg ++ 0x80 :: List.replicate padZeros 0 ++ beBytes8 (msg.length * 8)

/-- Split into 64-byte chunks; fuel-driven so the kernel can evaluate it. -/
def chunksF : Nat → List Nat → List (List Nat)
  | 0, _ => []
  | _, [] => []
  | fuel + 1, l => l.take 64 :: chunksF fuel (l.drop 64)

def sha256Digest (msg : List Nat) : Digest :=
  let padded := padBytes msg
  (chunksF padded.length padded).foldl compressChunk hInit

/-- The lowercase hex digit of a nibble, from its character code: `0`-`9`
for values below ten, then `a`-`f`. -/
def hexChar (n : Nat) : Char :=
  Char.ofNat (if n < 10 then 48 + n else 87 + n)

/-- The eight lowercase hex characters of one 32-bit word. -/
def toHex8 (w : Nat) : List Char :=
  [28, 24, 20, 16, 12, 8, 4, 0].map (fun s => hexChar ((w >>> s) % 16))

def digestHex (d : Digest) : String :=
  String.mk (([d.a, d.b, d.c, d.d, d.e, d.f, d.g, d.h].map toHex8).flatten)

/-- UTF-8 bytes of one character (Node's default encoding for `update`). -/
def utf8Bytes (c : Char) : List Nat :=
  let n := c.toNat
  if n < 0x80 then [n]
  else if n < 0x800 then [0xc0 ||| (n >>> 6), 0x80 ||| (n &&& 0x3f)]
  else if n < 0x10000 then
    [0xe0 ||| (n >>> 12), 0x80 ||| ((n >>> 6) &&& 0x3f), 0x80 ||| (n &&& 0x3f)]
  else
    [0xf0 ||| (n >>> 18), 0x80 ||| ((n >>> 12) &&& 0x3f),
     0x80 ||| ((n >>> 6) &&& 0x3f), 0x80 ||| (n &&& 0x3f)]

def strBytes (s : String) : List Nat := (s.data.map utf8Bytes).flatten

/-- `createHash('sha256').update(s).digest('hex')`. -/
def sha256Hex (s : String) : String := digestHex (sha256Digest (strBytes s))

/-- FIPS 180-4 test vector: the empty message. -/
example : sha256Hex "" = "e3b0c44298fc1c149afbf4c8996fb92427ae41e4649b934ca495991b7852b855" := by
  decide

/-- FIPS 180-4 test vector: "abc". -/
example : sha256Hex "abc" = "ba7816bf8f01cfea414140de5dae2223b00361a396177a9cb410ff61f20015ad" := by
  decide

/-! ### Data model of `EarthEngineService` -/

/-- Geographic bounding box.  The source stores the four bounds as JS
numbers (IEEE doubles); every behaviour verified here depends on them only
through the deterministic decimal rendering interpolated into the cache-key
payload, so they are embedded as integers. -/
structure Region where
  west : Int
  south : Int
  east : Int
  north : Int
deriving Repr, DecidableEq

/-- The `{min, max, mean}` elevation statistics object.  The scalar results
come back from the provider; they are embedded as integers for the same
reason as the `Region` bounds. -/
structure Stats where
  min : Int
  max : Int
  mean : Int
deriving Repr, DecidableEq

/-- A `CacheEntry`; absent JS fields are `none`.  JS truthiness of a
string field is `Option.isSome` combined with non-emptiness (the empty
string is falsy), see `truthyStr`. -/
structure CacheEntry where
  imageFilename : Option String := none
  compositeImageFilename : Option String := none
  roadsImageFilename : Option String := none
  stats : Option Stats := none
  timestamp : Nat := 0
deriving Repr, DecidableEq

/-- The in-memory `cacheMetadata` object: an association list keyed by the
cache key, assignment replacing the entry for an existing key. -/
abbrev CacheMetadata := List (String × CacheEntry)

structure CacheOptions where
  skipCache : Option Bool := none
  demOnly : Option Bool := none
deriving Repr, DecidableEq

/-- Oracles for everything outside the service: the provider's thumbnail
URLs (`getThumbURL`), failure switches for the individual external calls,
download success per URL, the asynchronous `reduceRegion` evaluation, the
success of `writeFileSync` on the metadata file, and `Date.now()`.  The
composite thumbnail URL additionally depends on whether the road overlay
was replaced by the fully-masked blank constant image. -/
structure Env where
  demThumbURL : Region → Nat → Nat → String
  roadsThumbURL : Region → Nat → Nat → String
  compositeThumbURL : Region → Nat → Nat → Bool → String
  demThumbFails : Bool
  roadsThumbFails : Bool
  compositeThumbFails : Bool
  roadsBuildFails : Bool
  downloadOk : String → Bool
  statsResult : Region → Except String Stats
  saveOk : Bool
  now : Nat

/-- The mutable world of one `EarthEngineService` instance: its fields,
the set of files on disk, the persisted metadata document, and counters of
the externally observable interactions (thumbnail-URL provider calls,
`evaluate` provider calls, download attempts, metadata save attempts). -/
structure ServiceState where
  initialized : Bool
  configSkipCache : Option Bool := none
  cacheDir : String := "cache"
  cacheMetadata : CacheMetadata := []
  diskMetadata : Option CacheMetadata := none
  fsFiles : List String := []
  thumbCalls : Nat := 0
  evalCalls : Nat := 0
  downloads : Nat := 0
  saves : Nat := 0
deriving Repr, DecidableEq

def lookupEntry : CacheMetadata → String → Option CacheEntry
  | [], _ => none
  | (k, e) :: rest, key => if k = key then some e else lookupEntry rest key

def insertEntry : CacheMetadata → String → CacheEntry → CacheMetadata
  | [], key, e => [(key, e)]
  | (k, e0) :: rest, key, e =>
    if k = key then (key, e) :: rest else (k, e0) :: insertEntry rest key e

/-- `existsSync` on an artifact path. -/
def existsFile (s : ServiceState) (path : String) : Bool := s.fsFiles.contains path

/-- `join(dir, name)`. -/
def joinPath (dir name : String) : String := dir ++ "/" ++ name

def notInitializedMsg : String :=
  "EarthEngineService not initialized. Call initialize() first."

/-- JS truthiness of an optional string field (`undefined` and `''` falsy). -/
def truthyStr : Option String → Bool
  | none => false
  | some s => !s.isEmpty

/-- The key payload: the six numeric fields interpolated in fixed order
with `,` as delimiter. -/
def keyPayload (region : Region) (width height : Nat) : String :=
  toString region.west ++ "," ++ toString region.south ++ "," ++
    toString region.east ++ "," ++ toString region.north ++ "," ++
    toString width ++ "," ++ toString height

/-- `getCacheKey`: SHA-256 of the payload, rendered as lowercase hex. -/
def getCacheKey (region : Region) (width height : Nat) : String :=
  sha256Hex (keyPayload region width height)

/-- `options?.skipCache ?? this.config.skipCache ?? false`. -/
def shouldSkipCache (s : ServiceState) (options : CacheOptions) : Bool :=
  options.skipCache.getD (s.configSkipCache.getD false)

/-- `downloadImage`: one fetch attempt; on a non-ok response throw a
download error; on success write the body to `filepath`. -/
def downloadImage (env : Env) (url filepath : String) (s : ServiceState) :
    Except String Unit × ServiceState :=
  let s1 := { s with downloads := s.downloads + 1 }
  if env.downloadOk url then
    (Except.ok (), { s1 with fsFiles := filepath :: s1.fsFiles })
  else
    (Except.error "Failed to download image", s1)

/-- `saveCacheMetadata`: overwrite the metadata file with the whole map;
a write failure is logged and swallowed. -/
def saveCacheMetadata (env : Env) (s : ServiceState) : ServiceState :=
  let s1 := { s with saves := s.saves + 1 }
  if env.saveOk then { s1 with diskMetadata := some s1.cacheMetadata } else s1

/-- `createCompositeThumbnail`: the road-overlay construction is wrapped in
try/catch — on failure the overlay becomes the fully-masked blank constant
image and the composite render proceeds; `composite.getThumbURL` is the
provider call and its failure propagates. -/
def createCompositeThumbnail (env : Env) (region : Region) (width height : Nat)
    (s : ServiceState) : Except String String × ServiceState :=
  if !s.initialized then (Except.error notInitializedMsg, s)
  else
    let blankOverlay := env.roadsBuildFails
    let s1 := { s with thumbCalls := s.thumbCalls + 1 }
    if env.compositeThumbFails then
      (Except.error "Failed to get composite thumbnail URL", s1)
    else
      (Except.ok (env.compositeThumbURL region width height blankOverlay), s1)

/-- The miss branch of `getElevationStats`: one `evaluate` provider call;
on success, persist unless `skipCache`, merging into an existing entry or
creating a placeholder entry with an empty `imageFilename`. -/
def computeStats (env : Env) (region : Region) (skipCache : Bool) (cacheKey : String)
    (s : ServiceState) : Except String Stats × ServiceState :=
  let s1 := { s with evalCalls := s.evalCalls + 1 }
  match env.statsResult region with
  | Except.error e => (Except.error e, s1)
  | Except.ok elevationStats =>
    if skipCache then (Except.ok elevationStats, s1)
    else
      let m :=
        match lookupEntry s1.cacheMetadata cacheKey with
        | some entry => insertEntry s1.cacheMetadata cacheKey { entry with stats := some elevationStats }
        | none => insertEntry s1.cacheMetadata cacheKey
            { imageFilename := some "", stats := some elevationStats, timestamp := env.now }
      let s2 := saveCacheMetadata env { s1 with cacheMetadata := m }
      (Except.ok elevationStats, s2)

/-- `getElevationStats`: fixed 800×600 probe key; a cache hit requires an
entry whose `stats` field is present (and `skipCache` unset/false). -/
def getElevationStats (env : Env) (region : Region) (options : CacheOptions)
    (s : ServiceState) : Except String Stats × ServiceState :=
  if !s.initialized then (Except.error notInitializedMsg, s)
  else
    let skipCache := shouldSkipCache s options
    let cacheKey := getCacheKey region 800 600
    let cached := lookupEntry s.cacheMetadata cacheKey
    match cached.bind CacheEntry.stats, skipCache with
    | some st, false => (Except.ok st, s)
    | some _, true => computeStats env region true cacheKey s
    | none, sk => computeStats env region sk cacheKey s

/-- Cache-hit probe for one filename field: field truthy and the artifact
still on disk yields the relative URL. -/
def fileHit (s : ServiceState) (file : Option String) : Option String :=
  match file with
  | some f =>
    if !f.isEmpty && existsFile s (joinPath s.cacheDir f) then
      some ("/images/earthengine/" ++ f)
    else none
  | none => none

/-- The cache-hit logic of `getRoadsThumbnail`: only the
`roadsImageFilename` artifact is consulted. -/
def roadsCacheHit (s : ServiceState) (cached : Option CacheEntry) (skipCache : Bool) :
    Option String :=
  if skipCache then none
  else
    match cached with
    | some entry => fileHit s entry.roadsImageFilename
    | none => none

/-- `getRoadsThumbnail`: the DEM key with the `_roads` suffix; on a miss
the road styling is built (its failure propagates here — no try/catch),
the thumbnail URL requested, the artifact downloaded, and the entry
`{roadsImageFilename, timestamp}` stored and persisted unconditionally. -/
def getRoadsThumbnail (env : Env) (region : Region) (width height : Nat)
    (options : CacheOptions) (s : ServiceState) : Except String String × ServiceState :=
  if !s.initialized then (Except.error notInitializedMsg, s)
  else
    let skipCache := shouldSkipCache s options
    let cacheKey := getCacheKey region width height ++ "_roads"
    let cached := lookupEntry s.cacheMetadata cacheKey
    match roadsCacheHit s cached skipCache with
    | some url => (Except.ok url, s)
    | none =>
      if env.roadsBuildFails then (Except.error "Failed to build roads visualization", s)
      else
        let s1 := { s with thumbCalls := s.thumbCalls + 1 }
        if env.roadsThumbFails then (Except.error "Failed to get roads thumbnail URL", s1)
        else
          let url := env.roadsThumbURL region width height
          let roadsImageFilename := "roads_" ++ cacheKey ++ ".png"
          match downloadImage env url (joinPath s1.cacheDir roadsImageFilename) s1 with
          | (Except.error e, s2) => (Except.error e, s2)
          | (Except.ok _, s2) =>
            let m := insertEntry s2.cacheMetadata cacheKey
              ({ roadsImageFilename := some roadsImageFilename, timestamp := env.now })
            let s3 := { s2 with cacheMetadata := m }
            let s4 := saveCacheMetadata env s3
            (Except.ok ("/images/earthengine/" ++ roadsImageFilename), s4)

/-- The catch block of `getDEMThumbnail`'s composite attempt: re-request
the elevation-only thumbnail, re-download it, fetch stats with the cache
bypassed, record `{imageFilename, stats, timestamp}` and persist; any
failure in here propagates. -/
def demMissFallback (env : Env) (region : Region) (width height : Nat) (cacheKey : String)
    (s : ServiceState) : Except String String × ServiceState :=
  let s1 := { s with thumbCalls := s.thumbCalls + 1 }
  if env.demThumbFails then (Except.error "Failed to get DEM thumbnail URL", s1)
  else
    let url := env.demThumbURL region width height
    let imageFilename := "dem_" ++ cacheKey ++ ".png"
    match downloadImage env url (joinPath s1.cacheDir imageFilename) s1 with
    | (Except.error e, s2) => (Except.error e, s2)
    | (Except.ok _, s2) =>
      match getElevationStats env region { skipCache := some true } s2 with
      | (Except.error e, s3) => (Except.error e, s3)
      | (Except.ok stats, s3) =>
        let m := insertEntry s3.cacheMetadata cacheKey
          ({ imageFilename := some imageFilename, stats := some stats, timestamp := env.now })
        let s4 := { s3 with cacheMetadata := m }
        let s5 := saveCacheMetadata env s4
        (Except.ok ("/images/earthengine/" ++ imageFilename), s5)

/-- The cache-hit logic of `getDEMThumbnail`: prefer the composite
artifact when `demOnly` is false, falling back to the elevation-only
artifact; each requires a truthy filename and the file on disk. -/
def demCacheHit (s : ServiceState) (cached : Option CacheEntry) (demOnly skipCache : Bool) :
    Option String :=
  match skipCache, cached with
  | false, some entry =>
    match (if demOnly then none else fileHit s entry.compositeImageFilename) with
    | some url => some url
    | none => fileHit s entry.imageFilename
  | _, _ => none

/-- `getDEMThumbnail`.  On a miss: request and download the elevation
thumbnail; if `demOnly`, fetch stats (cache bypassed), record and persist
`{imageFilename, stats, timestamp}`; otherwise attempt the composite
(download plus stats inside the try), recording
`{imageFilename, compositeImageFilename, stats, timestamp}` on success and
falling back to the elevation-only record when anything in the try throws.
Every store on the miss path happens whether or not `skipCache` was set. -/
def getDEMThumbnail (env : Env) (region : Region) (width height : Nat)
    (options : CacheOptions) (s : ServiceState) : Except String String × ServiceState :=
  if !s.initialized then (Except.error notInitializedMsg, s)
  else
    let skipCache := shouldSkipCache s options
    let cacheKey := getCacheKey region width height
    let cached := lookupEntry s.cacheMetadata cacheKey
    let demOnly := options.demOnly.getD false
    match demCacheHit s cached demOnly skipCache with
    | some url => (Except.ok url, s)
    | none =>
      let s1 := { s with thumbCalls := s.thumbCalls + 1 }
      if env.demThumbFails then (Except.error "Failed to get DEM thumbnail URL", s1)
      else
        let demThumbnailUrl := env.demThumbURL region width height
        let imageFilename := "dem_" ++ cacheKey ++ ".png"
        match downloadImage env demThumbnailUrl (joinPath s1.cacheDir imageFilename) s1 with
        | (Except.error e, s2) => (Except.error e, s2)
        | (Except.ok _, s2) =>
          if options.demOnly.getD false then
            match getElevationStats env region { skipCache := some true } s2 with
            | (Except.error e, s3) => (Except.error e, s3)
            | (Except.ok stats, s3) =>
              let m := insertEntry s3.cacheMetadata cacheKey
                ({ imageFilename := some imageFilename, stats := some stats, timestamp := env.now })
              let s4 := { s3 with cacheMetadata := m }
              let s5 := saveCacheMetadata env s4
              (Except.ok ("/images/earthengine/" ++ imageFilename), s5)
          else
            match createCompositeThumbnail env region width height s2 with
            | (Except.error _, s3) => demMissFallback env region width height cacheKey s3
            | (Except.ok compositeThumbnailUrl, s3) =>
              let compositeImageFilename := "dem_roads_" ++ cacheKey ++ ".png"
              match downloadImage env compositeThumbnailUrl
                  (joinPath s3.cacheDir compositeImageFilename) s3 with
              | (Except.error _, s4) => demMissFallback env region width height cacheKey s4
              | (Except.ok _, s4) =>
                match getElevationStats env region { skipCache := some true } s4 with
                | (Except.error _, s5) => demMissFallback env region width height cacheKey s5
                | (Except.ok stats, s5) =>
                  let m := insertEntry s5.cacheMetadata cacheKey
                    ({ imageFilename := some imageFilename,
                       compositeImageFilename := some compositeImageFilename,
                       stats := some stats, timestamp := env.now })
                  let s6 := { s5 with cacheMetadata := m }
                  let s7 := saveCacheMetadata env s6
                  (Except.ok ("/images/earthengine/" ++ compositeImageFilename), s7)

/-! ### Basic lemmas about the store and the key -/

theorem lookupEntry_insert_self (m : CacheMetadata) (k : String) (e : CacheEntry) :
    lookupEntry (insertEntry m k e) k = some e := by
  induction m with
  | nil => simp [insertEntry, lookupEntry]
  | cons p rest ih =>
    obtain ⟨k0, e0⟩ := p
    by_cases h : k0 = k <;> simp [insertEntry, lookupEntry, h, ih]

theorem lookupEntry_insert_ne (m : CacheMetadata) (k k' : String) (e : CacheEntry)
    (h : k ≠ k') : lookupEntry (insertEntry m k e) k' = lookupEntry m k' := by
  induction m with
  | nil => simp [insertEntry, lookupEntry, h]
  | cons p rest ih =>
    obtain ⟨k0, e0⟩ := p
    by_cases h0 : k0 = k
    · subst h0; simp [insertEntry, lookupEntry, h]
    · simp [insertEntry, lookupEntry, h0, ih]

theorem toHex8_length (w : Nat) : (toHex8 w).length = 8 := by
  simp [toHex8]

theorem sha256Hex_length (s : String) : (sha256Hex s).length = 64 := by
  simp [sha256Hex, digestHex, String.length, toHex8_length]

theorem getCacheKey_length (region : Region) (w h : Nat) :
    (getCacheKey region w h).length = 64 :=
  sha256Hex_length _

/-- The `_roads` namespace is disjoint from the plain digest namespace: a
suffixed key has length 70, a digest key length 64. -/
theorem roadsKey_ne_demKey (r r' : Region) (w h w' h' : Nat) :
    getCacheKey r w h ++ "_roads" ≠ getCacheKey r' w' h' := by
  intro heq
  have hl := congrArg String.length heq
  rw [String.length_append, getCacheKey_length, getCacheKey_length] at hl
  have h6 : ("_roads" : String).length = 6 := rfl
  omega

theorem isEmpty_false_of_length_pos (s : String) (h : 0 < s.length) : s.isEmpty = false := by
  rw [Bool.eq_false_iff]
  intro he
  rw [String.isEmpty_iff] at he
  subst he
  simp [String.length] at h

theorem demFilename_truthy (k : String) : ("dem_" ++ k ++ ".png").isEmpty = false := by
  apply isEmpty_false_of_length_pos
  rw [String.length_append, String.length_append]
  have h4 : ("dem_" : String).length = 4 := rfl
  omega

/-! ### Algebraic facts about the miss/hit machinery -/

theorem computeStats_skipTrue (env : Env) (region : Region) (cacheKey : String)
    (s : ServiceState) :
    computeStats env region true cacheKey s
      = (env.statsResult region, { s with evalCalls := s.evalCalls + 1 }) := by
  unfold computeStats
  cases env.statsResult region <;> simp

/-- With the cache bypassed, `getElevationStats` reads nothing, writes
nothing, and reports exactly the provider's evaluation outcome; the only
state change is one `evaluate` provider call. -/
theorem getElevationStats_skipTrue (env : Env) (region : Region) (d : Option Bool)
    (s : ServiceState) :
    getElevationStats env region ⟨some true, d⟩ s =
      if s.initialized then (env.statsResult region, { s with evalCalls := s.evalCalls + 1 })
      else (Except.error notInitializedMsg, s) := by
  unfold getElevationStats
  by_cases hs : s.initialized
  · simp only [hs, Bool.not_true, Bool.false_eq_true, if_false, if_true]
    cases hcb : (lookupEntry s.cacheMetadata (getCacheKey region 800 600)).bind CacheEntry.stats <;>
      simp [shouldSkipCache, computeStats_skipTrue, hs]
  · simp [hs]

/-- A cache hit returns the cached relative URL and leaves the state
completely untouched. -/
theorem getDEMThumbnail_hit (env : Env) (region : Region) (width height : Nat)
    (o : CacheOptions) (s : ServiceState) (url : String)
    (hs : s.initialized = true)
    (hhit : demCacheHit s (lookupEntry s.cacheMetadata (getCacheKey region width height))
        (o.demOnly.getD false) (shouldSkipCache s o) = some url) :
    getDEMThumbnail env region width height o s = (Except.ok url, s) := by
  unfold getDEMThumbnail
  simp [hs, hhit]

theorem demCacheHit_demOnly (s : ServiceState) (entry : CacheEntry) (f : String)
    (himg : entry.imageFilename = some f) (hne : f.isEmpty = false)
    (hfs : existsFile s (joinPath s.cacheDir f) = true) :
    demCacheHit s (some entry) true false = some ("/images/earthengine/" ++ f) := by
  simp [demCacheHit, fileHit, himg, hne, hfs]

/-- The record written on the `demOnly` miss path. -/
def demOnlyEntry (env : Env) (key : String) (st : Stats) : CacheEntry :=
  { imageFilename := some ("dem_" ++ key ++ ".png"), stats := some st, timestamp := env.now }

/-- Characterization of the whole `demOnly` miss path under a successful
render, download and statistics evaluation: the final state is explicit,
with one thumbnail provider call, one download, one `evaluate` provider
call and one save — and the store/persist happens regardless of how
`skipCache` resolved. -/
theorem getDEMThumbnail_demOnly_miss (env : Env) (region : Region) (width height : Nat)
    (o : CacheOptions) (s : ServiceState) (st : Stats)
    (hs : s.initialized = true)
    (ho : o.demOnly = some true)
    (hmiss : demCacheHit s (lookupEntry s.cacheMetadata (getCacheKey region width height))
        true (shouldSkipCache s o) = none)
    (hthumb : env.demThumbFails = false)
    (hdl : env.downloadOk (env.demThumbURL region width height) = true)
    (hres : env.statsResult region = Except.ok st) :
    getDEMThumbnail env region width height o s =
      (Except.ok ("/images/earthengine/" ++ ("dem_" ++ getCacheKey region width height ++ ".png")),
       { s with
         thumbCalls := s.thumbCalls + 1
         downloads := s.downloads + 1
         evalCalls := s.evalCalls + 1
         saves := s.saves + 1
         fsFiles := joinPath s.cacheDir ("dem_" ++ getCacheKey region width height ++ ".png")
           :: s.fsFiles
         cacheMetadata := insertEntry s.cacheMetadata (getCacheKey region width height)
           (demOnlyEntry env (getCacheKey region width height) st)
         diskMetadata :=
           if env.saveOk then
             some (insertEntry s.cacheMetadata (getCacheKey region width height)
               (demOnlyEntry env (getCacheKey region width height) st))
           else s.diskMetadata }) := by
  unfold getDEMThumbnail downloadImage saveCacheMetadata
  simp [hs, ho, hmiss, hthumb, hdl, hres, getElevationStats_skipTrue, demOnlyEntry]
  cases henv : env.saveOk <;> simp

/-- The record written on the roads miss path. -/
def roadsEntry (env : Env) (key : String) : CacheEntry :=
  { roadsImageFilename := some ("roads_" ++ key ++ ".png"), timestamp := env.now }

/-- Characterization of the whole roads miss path under a successful
render and download: one thumbnail provider call, one download, and an
unconditional store and persist — `skipCache` plays no role after the
skipped hit check. -/
theorem getRoadsThumbnail_miss (env : Env) (region : Region) (width height : Nat)
    (o : CacheOptions) (s : ServiceState)
    (hs : s.initialized = true)
    (hmiss : roadsCacheHit s
        (lookupEntry s.cacheMetadata (getCacheKey region width height ++ "_roads"))
        (shouldSkipCache s o) = none)
    (hbuild : env.roadsBuildFails = false)
    (hthumb : env.roadsThumbFails = false)
    (hdl : env.downloadOk (env.roadsThumbURL region width height) = true) :
    getRoadsThumbnail env region width height o s =
      (Except.ok ("/images/earthengine/" ++
        ("roads_" ++ (getCacheKey region width height ++ "_roads") ++ ".png")),
       { s with
         thumbCalls := s.thumbCalls + 1
         downloads := s.downloads + 1
         saves := s.saves + 1
         fsFiles := joinPath s.cacheDir
             ("roads_" ++ (getCacheKey region width height ++ "_roads") ++ ".png")
           :: s.fsFiles
         cacheMetadata := insertEntry s.cacheMetadata
           (getCacheKey region width height ++ "_roads")
           (roadsEntry env (getCacheKey region width height ++ "_roads"))
         diskMetadata :=
           if env.saveOk then
             some (insertEntry s.cacheMetadata (getCacheKey region width height ++ "_roads")
               (roadsEntry env (getCacheKey region width height ++ "_roads")))
           else s.diskMetadata }) := by
  unfold getRoadsThumbnail downloadImage saveCacheMetadata
  simp [hs, hmiss, hbuild, hthumb, hdl, roadsEntry]
  cases henv : env.saveOk <;> simp

/-- The record written on the composite miss path. -/
def compositeEntry (env : Env) (key : String) (st : Stats) : CacheEntry :=
  { imageFilename := some ("dem_" ++ key ++ ".png"),
    compositeImageFilename := some ("dem_roads_" ++ key ++ ".png"),
    stats := some st, timestamp := env.now }

/-- Characterization of the composite miss path when every external step
succeeds (the road overlay may or may not have been replaced by the blank
mask — that only changes the rendered URL): the entry records both the
elevation-only and the composite filenames. -/
theorem getDEMThumbnail_composite_miss (env : Env) (region : Region) (width height : Nat)
    (o : CacheOptions) (s : ServiceState) (st : Stats)
    (hs : s.initialized = true)
    (ho : o.demOnly.getD false = false)
    (hmiss : demCacheHit s (lookupEntry s.cacheMetadata (getCacheKey region width height))
        false (shouldSkipCache s o) = none)
    (hthumb : env.demThumbFails = false)
    (hdl : env.downloadOk (env.demThumbURL region width height) = true)
    (hcomp : env.compositeThumbFails = false)
    (hdl2 : env.downloadOk
        (env.compositeThumbURL region width height env.roadsBuildFails) = true)
    (hres : env.statsResult region = Except.ok st) :
    getDEMThumbnail env region width height o s =
      (Except.ok ("/images/earthengine/" ++
        ("dem_roads_" ++ getCacheKey region width height ++ ".png")),
       { s with
         thumbCalls := s.thumbCalls + 2
         downloads := s.downloads + 2
         evalCalls := s.evalCalls + 1
         saves := s.saves + 1
         fsFiles := joinPath s.cacheDir
             ("dem_roads_" ++ getCacheKey region width height ++ ".png")
           :: joinPath s.cacheDir ("dem_" ++ getCacheKey region width height ++ ".png")
           :: s.fsFiles
         cacheMetadata := insertEntry s.cacheMetadata (getCacheKey region width height)
           (compositeEntry env (getCacheKey region width height) st)
         diskMetadata :=
           if env.saveOk then
             some (insertEntry s.cacheMetadata (getCacheKey region width height)
               (compositeEntry env (getCacheKey region width height) st))
           else s.diskMetadata }) := by
  unfold getDEMThumbnail createCompositeThumbnail downloadImage saveCacheMetadata
  simp [hs, ho, hmiss, hthumb, hdl, hcomp, hdl2, hres, getElevationStats_skipTrue,
    compositeEntry]
  cases henv : env.saveOk <;> simp

/-- Characterization of the composite attempt when `composite.getThumbURL`
throws: the catch block re-renders and re-downloads the elevation-only
artifact, fetches stats, stores the elevation-only record and returns the
elevation-only URL — the composite failure never reaches the caller. -/
theorem getDEMThumbnail_composite_fallback (env : Env) (region : Region) (width height : Nat)
    (o : CacheOptions) (s : ServiceState) (st : Stats)
    (hs : s.initialized = true)
    (ho : o.demOnly.getD false = false)
    (hmiss : demCacheHit s (lookupEntry s.cacheMetadata (getCacheKey region width height))
        false (shouldSkipCache s o) = none)
    (hthumb : env.demThumbFails = false)
    (hdl : env.downloadOk (env.demThumbURL region width height) = true)
    (hcomp : env.compositeThumbFails = true)
    (hres : env.statsResult region = Except.ok st) :
    getDEMThumbnail env region width height o s =
      (Except.ok ("/images/earthengine/" ++
        ("dem_" ++ getCacheKey region width height ++ ".png")),
       { s with
         thumbCalls := s.thumbCalls + 3
         downloads := s.downloads + 2
         evalCalls := s.evalCalls + 1
         saves := s.saves + 1
         fsFiles := joinPath s.cacheDir ("dem_" ++ getCacheKey region width height ++ ".png")
           :: joinPath s.cacheDir ("dem_" ++ getCacheKey region width height ++ ".png")
           :: s.fsFiles
         cacheMetadata := insertEntry s.cacheMetadata (getCacheKey region width height)
           (demOnlyEntry env (getCacheKey region width height) st)
         diskMetadata :=
           if env.saveOk then
             some (insertEntry s.cacheMetadata (getCacheKey region width height)
               (demOnlyEntry env (getCacheKey region width height) st))
           else s.diskMetadata }) := by
  unfold getDEMThumbnail demMissFallback createCompositeThumbnail downloadImage
    saveCacheMetadata
  simp [hs, ho, hmiss, hthumb, hdl, hcomp, hres, getElevationStats_skipTrue, demOnlyEntry]
  cases henv : env.saveOk <;> simp

theorem demMissFallback_frame (env : Env) (region : Region) (width height : Nat)
    (cacheKey : String) (s : ServiceState) (k : String)
    (hk : k ≠ cacheKey) :
    lookupEntry (demMissFallback env region width height cacheKey s).2.cacheMetadata k
      = lookupEntry s.cacheMetadata k := by
  unfold demMissFallback downloadImage saveCacheMetadata
  simp only [getElevationStats_skipTrue]
  cases hthumb : env.demThumbFails <;> simp [hthumb]
  cases hdl : env.downloadOk (env.demThumbURL region width height) <;> simp [hdl]
  cases hs : s.initialized <;> simp [hs]
  cases hres : env.statsResult region <;> simp [hres]
  cases hsave : env.saveOk <;>
    simp [hsave, lookupEntry_insert_ne _ _ _ _ (Ne.symm hk)]

set_option maxHeartbeats 1000000 in
/-- `getDEMThumbnail` touches no metadata entry other than the one at its
own `(region, width, height)` key — over every environment, option set and
state, including every failure path. -/
theorem getDEMThumbnail_frame (env : Env) (region : Region) (width height : Nat)
    (o : CacheOptions) (s : ServiceState) (k : String)
    (hk : k ≠ getCacheKey region width height) :
    lookupEntry (getDEMThumbnail env region width height o s).2.cacheMetadata k
      = lookupEntry s.cacheMetadata k := by
  by_cases hs : s.initialized
  case neg =>
    unfold getDEMThumbnail
    simp [hs]
  case pos =>
    unfold getDEMThumbnail createCompositeThumbnail downloadImage saveCacheMetadata
    simp only [hs, Bool.not_true, Bool.false_eq_true, if_false, getElevationStats_skipTrue]
    cases hhit : demCacheHit s (lookupEntry s.cacheMetadata (getCacheKey region width height))
        (o.demOnly.getD false) (shouldSkipCache s o) <;> simp [hhit]
    cases hthumb : env.demThumbFails <;> simp [hthumb]
    cases hdl : env.downloadOk (env.demThumbURL region width height) <;> simp [hdl]
    cases hdo : o.demOnly.getD false <;> simp [hdo, hs]
    · cases hcomp : env.compositeThumbFails <;> simp [hcomp]
      · cases hdl2 : env.downloadOk
            (env.compositeThumbURL region width height env.roadsBuildFails) <;> simp [hdl2]
        · rw [demMissFallback_frame _ _ _ _ _ _ _ hk]
        · cases hres : env.statsResult region <;> simp [hres]
          · rw [demMissFallback_frame _ _ _ _ _ _ _ hk]
          · cases hsave : env.saveOk <;>
              simp [hsave, lookupEntry_insert_ne _ _ _ _ (Ne.symm hk)]
      · rw [demMissFallback_frame _ _ _ _ _ _ _ hk]
    · cases hres : env.statsResult region <;> simp [hres]
      cases hsave : env.saveOk <;>
        simp [hsave, lookupEntry_insert_ne _ _ _ _ (Ne.symm hk)]

/-- `getRoadsThumbnail` touches no metadata entry other than the one at
its own suffixed key. -/
theorem getRoadsThumbnail_frame (env : Env) (region : Region) (width height : Nat)
    (o : CacheOptions) (s : ServiceState) (k : String)
    (hk : k ≠ getCacheKey region width height ++ "_roads") :
    lookupEntry (getRoadsThumbnail env region width height o s).2.cacheMetadata k
      = lookupEntry s.cacheMetadata k := by
  by_cases hs : s.initialized
  case neg =>
    unfold getRoadsThumbnail
    simp [hs]
  case pos =>
    unfold getRoadsThumbnail downloadImage saveCacheMetadata
    simp only [hs, Bool.not_true, Bool.false_eq_true, if_false]
    cases hhit : roadsCacheHit s
        (lookupEntry s.cacheMetadata (getCacheKey region width height ++ "_roads"))
        (shouldSkipCache s o) <;> simp [hhit]
    cases hbuild : env.roadsBuildFails <;> simp [hbuild]
    cases hthumb : env.roadsThumbFails <;> simp [hthumb]
    cases hdl : env.downloadOk (env.roadsThumbURL region width height) <;> simp [hdl]
    cases hsave : env.saveOk <;>
      simp [hsave, lookupEntry_insert_ne _ _ _ _ (Ne.symm hk)]

theorem computeStats_evalCalls (env : Env) (region : Region) (sk : Bool) (key : String)
    (s : ServiceState) :
    (computeStats env region sk key s).2.evalCalls = s.evalCalls + 1 := by
  unfold computeStats saveCacheMetadata
  cases env.statsResult region <;> simp
  cases hsave : env.saveOk <;> cases sk <;> simp [hsave]

/-- When the probe-key entry carries no stats, every `getElevationStats`
call performs an `evaluate` provider call. -/
theorem getElevationStats_recomputes (env : Env) (region : Region) (o : CacheOptions)
    (s : ServiceState)
    (hs : s.initialized = true)
    (hnone : (lookupEntry s.cacheMetadata (getCacheKey region 800 600)).bind
        CacheEntry.stats = none) :
    (getElevationStats env region o s).2.evalCalls = s.evalCalls + 1 := by
  unfold getElevationStats
  simp [hs, hnone, computeStats_evalCalls]

/-- The cache-hit case of `getElevationStats`: cached stats are returned
and the state is untouched. -/
theorem getElevationStats_cachedHit (env : Env) (region : Region) (o : CacheOptions)
    (s : ServiceState) (st : Stats)
    (hs : s.initialized = true)
    (hskip : shouldSkipCache s o = false)
    (hstats : (lookupEntry s.cacheMetadata (getCacheKey region 800 600)).bind
        CacheEntry.stats = some st) :
    getElevationStats env region o s = (Except.ok st, s) := by
  unfold getElevationStats
  simp [hs, hskip, hstats]

/-- The merge case of `getElevationStats`: an existing probe-key entry
without stats takes `stats := some v` and keeps every other field. -/
theorem getElevationStats_merge (env : Env) (region : Region) (o : CacheOptions)
    (s : ServiceState) (entry : CacheEntry) (v : Stats)
    (hs : s.initialized = true)
    (hskip : shouldSkipCache s o = false)
    (hentry : lookupEntry s.cacheMetadata (getCacheKey region 800 600) = some entry)
    (hstats : entry.stats = none)
    (hres : env.statsResult region = Except.ok v) :
    getElevationStats env region o s =
      (Except.ok v,
       { s with
         evalCalls := s.evalCalls + 1
         saves := s.saves + 1
         cacheMetadata := insertEntry s.cacheMetadata (getCacheKey region 800 600)
           ({ entry with stats := some v })
         diskMetadata :=
           if env.saveOk then
             some (insertEntry s.cacheMetadata (getCacheKey region 800 600)
               ({ entry with stats := some v }))
           else s.diskMetadata }) := by
  unfold getElevationStats computeStats saveCacheMetadata
  simp [hs, hskip, hentry, hstats, hres]
  cases henv : env.saveOk <;> simp

theorem demCacheHit_skip (s : ServiceState) (c : Option CacheEntry) (d : Bool) :
    demCacheHit s c d true = none := rfl

theorem roadsCacheHit_skip (s : ServiceState) (c : Option CacheEntry) :
    roadsCacheHit s c true = none := rfl

theorem computeStats_val (env : Env) (region : Region) (sk : Bool) (key : String)
    (s : ServiceState) :
    (computeStats env region sk key s).1 = env.statsResult region := by
  unfold computeStats saveCacheMetadata
  cases env.statsResult region <;> simp
  cases sk <;> simp

/-- When the probe-key entry carries no stats, the value returned by
`getElevationStats` is exactly the provider's evaluation outcome. -/
theorem getElevationStats_val_of_probe_none (env : Env) (region : Region) (o : CacheOptions)
    (s : ServiceState)
    (hs : s.initialized = true)
    (hnone : (lookupEntry s.cacheMetadata (getCacheKey region 800 600)).bind
        CacheEntry.stats = none) :
    (getElevationStats env region o s).1 = env.statsResult region := by
  unfold getElevationStats
  simp [hs, hnone, computeStats_val]

theorem demMissFallback_preserves (env : Env) (region : Region) (width height : Nat)
    (cacheKey : String) (s : ServiceState) :
    (demMissFallback env region width height cacheKey s).2.initialized = s.initialized ∧
    (demMissFallback env region width height cacheKey s).2.configSkipCache
      = s.configSkipCache ∧
    (demMissFallback env region width height cacheKey s).2.cacheDir = s.cacheDir := by
  unfold demMissFallback downloadImage saveCacheMetadata
  simp only [getElevationStats_skipTrue]
  cases hthumb : env.demThumbFails <;> simp [hthumb]
  cases hdl : env.downloadOk (env.demThumbURL region width height) <;> simp [hdl]
  cases hs : s.initialized <;> simp [hs]
  cases hres : env.statsResult region <;> simp [hres]
  cases hsave : env.saveOk <;> simp [hsave]

set_option maxHeartbeats 1000000 in
/-- The service configuration fields survive every `getDEMThumbnail` run. -/
theorem getDEMThumbnail_preserves (env : Env) (region : Region) (width height : Nat)
    (o : CacheOptions) (s : ServiceState) :
    (getDEMThumbnail env region width height o s).2.initialized = s.initialized ∧
    (getDEMThumbnail env region width height o s).2.configSkipCache = s.configSkipCache ∧
    (getDEMThumbnail env region width height o s).2.cacheDir = s.cacheDir := by
  by_cases hs : s.initialized
  case neg =>
    unfold getDEMThumbnail
    simp [hs]
  case pos =>
    unfold getDEMThumbnail createCompositeThumbnail downloadImage saveCacheMetadata
    simp only [hs, Bool.not_true, Bool.false_eq_true, if_false, getElevationStats_skipTrue]
    cases hhit : demCacheHit s (lookupEntry s.cacheMetadata (getCacheKey region width height))
        (o.demOnly.getD false) (shouldSkipCache s o) <;> simp [hhit, hs]
    cases hthumb : env.demThumbFails <;> simp [hthumb]
    cases hdl : env.downloadOk (env.demThumbURL region width height) <;> simp [hdl]
    cases hdo : o.demOnly.getD false <;> simp [hdo, hs]
    · cases hcomp : env.compositeThumbFails <;> simp [hcomp]
      · cases hdl2 : env.downloadOk
            (env.compositeThumbURL region width height env.roadsBuildFails) <;> simp [hdl2]
        · simpa using demMissFallback_preserves env region width height
            (getCacheKey region width height) _
        · cases hres : env.statsResult region <;> simp [hres]
          · simpa using demMissFallback_preserves env region width height
              (getCacheKey region width height) _
          · cases hsave : env.saveOk <;> simp [hsave]
      · simpa using demMissFallback_preserves env region width height
          (getCacheKey region width height) _
    · cases hres : env.statsResult region <;> simp [hres]
      cases hsave : env.saveOk <;> simp [hsave]

/-- The value a bypassed (or cache-missing) `getDEMThumbnail` computes,
as a function of the environment alone. -/
def demFreshValue (env : Env) (region : Region) (width height : Nat) (demOnly : Bool) :
    Except String String :=
  if env.demThumbFails then Except.error "Failed to get DEM thumbnail URL"
  else if env.downloadOk (env.demThumbURL region width height) = false then
    Except.error "Failed to download image"
  else
    match env.statsResult region with
    | Except.error e => Except.error e
    | Except.ok _ =>
      if demOnly then
        Except.ok ("/images/earthengine/" ++ ("dem_" ++ getCacheKey region width height ++ ".png"))
      else if env.compositeThumbFails = false ∧
          env.downloadOk (env.compositeThumbURL region width height env.roadsBuildFails) = true then
        Except.ok ("/images/earthengine/" ++
          ("dem_roads_" ++ getCacheKey region width height ++ ".png"))
      else
        Except.ok ("/images/earthengine/" ++ ("dem_" ++ getCacheKey region width height ++ ".png"))

/-- The value a bypassed (or cache-missing) `getRoadsThumbnail` computes,
as a function of the environment alone. -/
def roadsFreshValue (env : Env) (region : Region) (width height : Nat) :
    Except String String :=
  if env.roadsBuildFails then Except.error "Failed to build roads visualization"
  else if env.roadsThumbFails then Except.error "Failed to get roads thumbnail URL"
  else if env.downloadOk (env.roadsThumbURL region width height) = false then
    Except.error "Failed to download image"
  else
    Except.ok ("/images/earthengine/"
      ++ ("roads_" ++ (getCacheKey region width height ++ "_roads") ++ ".png"))

set_option maxHeartbeats 1000000 in
/-- With the cache bypassed, the value `getDEMThumbnail` returns is a
function of the environment alone: no cache entry is consulted. -/
theorem getDEMThumbnail_skip_val (env : Env) (region : Region) (width height : Nat)
    (o : CacheOptions) (s : ServiceState)
    (hskip : shouldSkipCache s o = true) (hs : s.initialized = true) :
    (getDEMThumbnail env region width height o s).1
      = demFreshValue env region width height (o.demOnly.getD false) := by
  unfold getDEMThumbnail demMissFallback createCompositeThumbnail downloadImage
    saveCacheMetadata demFreshValue
  simp only [hs, hskip, demCacheHit_skip, Bool.not_true, Bool.false_eq_true, if_false,
    getElevationStats_skipTrue]
  cases hthumb : env.demThumbFails <;> simp [hthumb]
  cases hdl : env.downloadOk (env.demThumbURL region width height) <;> simp [hdl]
  cases hdo : o.demOnly.getD false <;> simp [hdo, hs]
  · cases hcomp : env.compositeThumbFails <;> simp [hcomp, hs]
    · cases hdl2 : env.downloadOk
          (env.compositeThumbURL region width height env.roadsBuildFails) <;> simp [hdl2, hs]
      · cases hres : env.statsResult region <;> simp [hres]
      · cases hres : env.statsResult region <;> simp [hres]
    · cases hres : env.statsResult region <;> simp [hres]
  · cases hres : env.statsResult region <;> simp [hres]

/-- With the cache bypassed, the value `getRoadsThumbnail` returns is a
function of the environment alone: no cache entry is consulted. -/
theorem getRoadsThumbnail_skip_val (env : Env) (region : Region) (width height : Nat)
    (o : CacheOptions) (s : ServiceState)
    (hskip : shouldSkipCache s o = true) (hs : s.initialized = true) :
    (getRoadsThumbnail env region width height o s).1
      = roadsFreshValue env region width height := by
  unfold getRoadsThumbnail downloadImage saveCacheMetadata roadsFreshValue
  simp only [hs, hskip, roadsCacheHit_skip, Bool.not_true, Bool.false_eq_true, if_false]
  cases hbuild : env.roadsBuildFails <;> simp [hbuild]
  cases hthumb : env.roadsThumbFails <;> simp [hthumb]
  cases hdl : env.downloadOk (env.roadsThumbURL region width height) <;> simp [hdl]

/-! ### Concrete instances for witnesses and counterexamples -/

/-- The Ridgecrest example region, integral bounds. -/
def region0 : Region := ⟨-118, 35, -117, 36⟩

/-- A fully successful external world. -/
def env0 : Env :=
  { demThumbURL := fun _ _ _ => "https://earthengine.example/dem"
    roadsThumbURL := fun _ _ _ => "https://earthengine.example/roads"
    compositeThumbURL := fun _ _ _ _ => "https://earthengine.example/composite"
    demThumbFails := false
    roadsThumbFails := false
    compositeThumbFails := false
    roadsBuildFails := false
    downloadOk := fun _ => true
    statsResult := fun _ => Except.ok ⟨0, 4400, 1200⟩
    saveOk := true
    now := 1700000000000 }

/-- A freshly initialized service with an empty cache. -/
def state0 : ServiceState := { initialized := true, cacheDir := "public/images/earthengine" }

/-- A service instance that has not completed initialization. -/
def stateUninit : ServiceState := { initialized := false }

/-- The successful world, except that `composite.getThumbURL` throws. -/
def envCompositeFail : Env := { env0 with compositeThumbFails := true }

/-- The successful world, except that building the road overlay throws
synchronously. -/
def envRoadsBuildFail : Env := { env0 with roadsBuildFails := true }

/-! ### Claims -/

/-- C8 : each of the three public operations, invoked before the one-time
initialization has completed, fails with the `NotInitializedError` message
and leaves the entire state — in-memory cache, persisted file, file system
and all interaction counters — untouched, so nothing was contacted, read
or mutated. -/
theorem C8_not_initialized_guard (env : Env) (region : Region) (width height : Nat)
    (o : CacheOptions) (s : ServiceState) (h : s.initialized = false) :
    getDEMThumbnail env region width height o s = (Except.error notInitializedMsg, s) ∧
    getRoadsThumbnail env region width height o s = (Except.error notInitializedMsg, s) ∧
    getElevationStats env region o s = (Except.error notInitializedMsg, s) := by
  unfold getDEMThumbnail getRoadsThumbnail getElevationStats
  simp [h]

/-- Witness for C8 at a concrete uninitialized service. -/
theorem C8_witness :
    stateUninit.initialized = false ∧
    getDEMThumbnail env0 region0 512 512 {} stateUninit
      = (Except.error notInitializedMsg, stateUninit) ∧
    getRoadsThumbnail env0 region0 512 512 {} stateUninit
      = (Except.error notInitializedMsg, stateUninit) ∧
    getElevationStats env0 region0 {} stateUninit
      = (Except.error notInitializedMsg, stateUninit) :=
  ⟨rfl, C8_not_initialized_guard env0 region0 512 512 {} stateUninit rfl⟩

/-- C5 : the metadata key of `getRoadsThumbnail` (the DEM key with the
`_roads` suffix) is never equal to any `getDEMThumbnail` key — the digest
keys have length 64 and suffixed keys length 70 — and consequently a roads
run never reads or writes a DEM metadata entry and a DEM run never reads
or writes a roads metadata entry. -/
theorem C5_key_space_separation (env : Env) (r r' : Region) (w h w' h' : Nat)
    (o o' : CacheOptions) (s s' : ServiceState) :
    getCacheKey r w h ++ "_roads" ≠ getCacheKey r' w' h' ∧
    lookupEntry (getRoadsThumbnail env r w h o s).2.cacheMetadata (getCacheKey r' w' h')
      = lookupEntry s.cacheMetadata (getCacheKey r' w' h') ∧
    lookupEntry (getDEMThumbnail env r' w' h' o' s').2.cacheMetadata
        (getCacheKey r w h ++ "_roads")
      = lookupEntry s'.cacheMetadata (getCacheKey r w h ++ "_roads") :=
  ⟨roadsKey_ne_demKey r r' w h w' h',
   getRoadsThumbnail_frame env r w h o s _ (Ne.symm (roadsKey_ne_demKey r r' w h w' h')),
   getDEMThumbnail_frame env r' w' h' o' s' _ (roadsKey_ne_demKey r r' w h w' h')⟩

set_option maxHeartbeats 4000000 in
/-- C6 : `getCacheKey` is a pure function equal to the lowercase-hex
256-bit SHA-256 digest of the six numeric fields concatenated in the fixed
order west, south, east, north, width, height with `,` as delimiter (so
numerically equal inputs always give identical output), and on the
concrete example region every single-field change produces a different
key. -/
theorem C6_key_determinism :
    (∀ (r : Region) (w h : Nat), getCacheKey r w h = sha256Hex (keyPayload r w h)) ∧
    getCacheKey region0 1024 1024 ≠ getCacheKey ⟨-119, 35, -117, 36⟩ 1024 1024 ∧
    getCacheKey region0 1024 1024 ≠ getCacheKey ⟨-118, 34, -117, 36⟩ 1024 1024 ∧
    getCacheKey region0 1024 1024 ≠ getCacheKey ⟨-118, 35, -116, 36⟩ 1024 1024 ∧
    getCacheKey region0 1024 1024 ≠ getCacheKey ⟨-118, 35, -117, 37⟩ 1024 1024 ∧
    getCacheKey region0 1024 1024 ≠ getCacheKey region0 1023 1024 ∧
    getCacheKey region0 1024 1024 ≠ getCacheKey region0 1024 1023 :=
  ⟨fun _ _ _ => rfl, by decide, by decide, by decide, by decide, by decide, by decide⟩

/-- C3 : when the composite-rendering step throws, `getDEMThumbnail` with
`demOnly:false` still returns the elevation-only URL (the failure does not
propagate), and the entry it stores and persists carries `imageFilename`,
`stats` and `timestamp` but no `compositeImageFilename`. -/
theorem C3_composite_fallback (env : Env) (region : Region) (width height : Nat)
    (o : CacheOptions) (s : ServiceState) (st : Stats)
    (hs : s.initialized = true)
    (ho : o.demOnly.getD false = false)
    (hmiss : demCacheHit s (lookupEntry s.cacheMetadata (getCacheKey region width height))
        false (shouldSkipCache s o) = none)
    (hthumb : env.demThumbFails = false)
    (hdl : env.downloadOk (env.demThumbURL region width height) = true)
    (hcomp : env.compositeThumbFails = true)
    (hres : env.statsResult region = Except.ok st)
    (hsave : env.saveOk = true) :
    (getDEMThumbnail env region width height o s).1
      = Except.ok ("/images/earthengine/"
          ++ ("dem_" ++ getCacheKey region width height ++ ".png")) ∧
    lookupEntry (getDEMThumbnail env region width height o s).2.cacheMetadata
        (getCacheKey region width height)
      = some (demOnlyEntry env (getCacheKey region width height) st) ∧
    (demOnlyEntry env (getCacheKey region width height) st).imageFilename
      = some ("dem_" ++ getCacheKey region width height ++ ".png") ∧
    (demOnlyEntry env (getCacheKey region width height) st).stats = some st ∧
    (demOnlyEntry env (getCacheKey region width height) st).timestamp = env.now ∧
    (demOnlyEntry env (getCacheKey region width height) st).compositeImageFilename = none ∧
    (getDEMThumbnail env region width height o s).2.diskMetadata
      = some (getDEMThumbnail env region width height o s).2.cacheMetadata := by
  rw [getDEMThumbnail_composite_fallback env region width height o s st hs ho hmiss hthumb
    hdl hcomp hres]
  simp [lookupEntry_insert_self, demOnlyEntry, hsave]

/-- Witness for C3 at concrete inputs. -/
theorem C3_witness :
    (getDEMThumbnail envCompositeFail region0 512 512 {} state0).1
      = Except.ok ("/images/earthengine/"
          ++ ("dem_" ++ getCacheKey region0 512 512 ++ ".png")) ∧
    lookupEntry (getDEMThumbnail envCompositeFail region0 512 512 {} state0).2.cacheMetadata
        (getCacheKey region0 512 512)
      = some (demOnlyEntry envCompositeFail (getCacheKey region0 512 512) ⟨0, 4400, 1200⟩) ∧
    (demOnlyEntry envCompositeFail (getCacheKey region0 512 512)
        ⟨0, 4400, 1200⟩).compositeImageFilename = none := by
  obtain ⟨h1, h2, _, _, _, h6, _⟩ :=
    C3_composite_fallback envCompositeFail region0 512 512 {} state0 ⟨0, 4400, 1200⟩
      rfl rfl rfl rfl rfl rfl rfl rfl
  exact ⟨h1, h2, h6⟩

/-- C9 : a synchronous failure while building the road overlay inside
`createCompositeThumbnail` is caught there and replaced by the
fully-masked blank overlay, so the composite render still succeeds: the
composite path does not fall back to the elevation-only record, the
returned URL is the composite one, and the stored entry records a
`compositeImageFilename`. -/
theorem C9_blank_overlay_fallback (env : Env) (region : Region) (width height : Nat)
    (o : CacheOptions) (s : ServiceState) (st : Stats)
    (hs : s.initialized = true)
    (hbuild : env.roadsBuildFails = true)
    (ho : o.demOnly.getD false = false)
    (hmiss : demCacheHit s (lookupEntry s.cacheMetadata (getCacheKey region width height))
        false (shouldSkipCache s o) = none)
    (hthumb : env.demThumbFails = false)
    (hdl : env.downloadOk (env.demThumbURL region width height) = true)
    (hcomp : env.compositeThumbFails = false)
    (hdl2 : env.downloadOk (env.compositeThumbURL region width height true) = true)
    (hres : env.statsResult region = Except.ok st) :
    (createCompositeThumbnail env region width height s).1
      = Except.ok (env.compositeThumbURL region width height true) ∧
    (getDEMThumbnail env region width height o s).1
      = Except.ok ("/images/earthengine/"
          ++ ("dem_roads_" ++ getCacheKey region width height ++ ".png")) ∧
    lookupEntry (getDEMThumbnail env region width height o s).2.cacheMetadata
        (getCacheKey region width height)
      = some (compositeEntry env (getCacheKey region width height) st) ∧
    (compositeEntry env (getCacheKey region width height) st).compositeImageFilename
      = some ("dem_roads_" ++ getCacheKey region width height ++ ".png") := by
  have hdl2' : env.downloadOk
      (env.compositeThumbURL region width height env.roadsBuildFails) = true := by
    rw [hbuild]
    exact hdl2
  refine ⟨?_, ?_, ?_, rfl⟩
  · unfold createCompositeThumbnail
    simp [hs, hcomp, hbuild]
  · rw [getDEMThumbnail_composite_miss env region width height o s st hs ho hmiss hthumb hdl
      hcomp hdl2' hres]
  · rw [getDEMThumbnail_composite_miss env region width height o s st hs ho hmiss hthumb hdl
      hcomp hdl2' hres]
    simp [lookupEntry_insert_self]

/-- Witness for C9 at concrete inputs. -/
theorem C9_witness :
    (createCompositeThumbnail envRoadsBuildFail region0 512 512 state0).1
      = Except.ok (envRoadsBuildFail.compositeThumbURL region0 512 512 true) ∧
    (getDEMThumbnail envRoadsBuildFail region0 512 512 {} state0).1
      = Except.ok ("/images/earthengine/"
          ++ ("dem_roads_" ++ getCacheKey region0 512 512 ++ ".png")) ∧
    lookupEntry (getDEMThumbnail envRoadsBuildFail region0 512 512 {} state0).2.cacheMetadata
        (getCacheKey region0 512 512)
      = some (compositeEntry envRoadsBuildFail (getCacheKey region0 512 512) ⟨0, 4400, 1200⟩) := by
  obtain ⟨h1, h2, h3, _⟩ :=
    C9_blank_overlay_fallback envRoadsBuildFail region0 512 512 {} state0 ⟨0, 4400, 1200⟩
      rfl rfl rfl rfl rfl rfl rfl rfl rfl
  exact ⟨h1, h2, h3⟩

/-- A second `demOnly` call hits the cache: with the entry present and the
downloaded file on disk it returns the cached URL and performs nothing. -/
theorem getDEMThumbnail_demOnly_hit (env : Env) (region : Region) (width height : Nat)
    (s1 : ServiceState) (st : Stats)
    (hs : s1.initialized = true)
    (hc : s1.configSkipCache = none)
    (hl : lookupEntry s1.cacheMetadata (getCacheKey region width height)
      = some (demOnlyEntry env (getCacheKey region width height) st))
    (hfs : existsFile s1 (joinPath s1.cacheDir
      ("dem_" ++ getCacheKey region width height ++ ".png")) = true) :
    getDEMThumbnail env region width height ⟨none, some true⟩ s1
      = (Except.ok ("/images/earthengine/"
          ++ ("dem_" ++ getCacheKey region width height ++ ".png")), s1) := by
  apply getDEMThumbnail_hit _ _ _ _ _ _ _ hs
  rw [hl]
  have hskip : shouldSkipCache s1 ⟨none, some true⟩ = false := by
    simp [shouldSkipCache, hc]
  rw [hskip]
  exact demCacheHit_demOnly s1 _ _ rfl (demFilename_truthy _) hfs

/-- C1 counterexample: a `getRoadsThumbnail` call with `skipCache:true`
does store its freshly produced record in the metadata map and does
persist it to disk — the write half of cache bypass is not symmetric. -/
theorem C1_counterexample :
    lookupEntry (getRoadsThumbnail env0 region0 512 512 ⟨some true, none⟩ state0).2.cacheMetadata
        (getCacheKey region0 512 512 ++ "_roads") ≠ none ∧
    (getRoadsThumbnail env0 region0 512 512 ⟨some true, none⟩ state0).2.diskMetadata
      ≠ state0.diskMetadata := by
  rw [getRoadsThumbnail_miss env0 region0 512 512 ⟨some true, none⟩ state0 rfl rfl rfl rfl rfl]
  constructor
  · simp [lookupEntry_insert_self]
  · simp [state0, env0]

/-- C1 (amended) : with `skipCache:true` none of the three getters reads
an existing cache entry — the thumbnail values are functions of the
environment alone and the stats value is exactly the provider's evaluation
outcome — and `getElevationStats` additionally writes nothing to the
metadata store; the two thumbnail getters, by contrast, do store and
persist their fresh record even under `skipCache:true` (the
counterexample), so the no-write half holds only for stats. -/
theorem C1_amended_bypass (env : Env) (region : Region) (width height : Nat)
    (o : CacheOptions) (s : ServiceState) (d : Option Bool)
    (hskip : o.skipCache = some true) (hs : s.initialized = true) :
    (getDEMThumbnail env region width height o s).1
      = demFreshValue env region width height (o.demOnly.getD false) ∧
    (getRoadsThumbnail env region width height o s).1
      = roadsFreshValue env region width height ∧
    (getElevationStats env region ⟨some true, d⟩ s).1 = env.statsResult region ∧
    (getElevationStats env region ⟨some true, d⟩ s).2.cacheMetadata = s.cacheMetadata ∧
    (getElevationStats env region ⟨some true, d⟩ s).2.diskMetadata = s.diskMetadata := by
  have hsk : shouldSkipCache s o = true := by simp [shouldSkipCache, hskip]
  refine ⟨getDEMThumbnail_skip_val env region width height o s hsk hs,
    getRoadsThumbnail_skip_val env region width height o s hsk hs, ?_, ?_, ?_⟩ <;>
    simp [getElevationStats_skipTrue, hs]

/-- An entry and a populated cache used to witness that the bypassed
getters ignore existing entries. -/
def c1entry : CacheEntry :=
  { imageFilename := some "dem_cached.png", roadsImageFilename := some "roads_cached.png",
    stats := some ⟨1, 2, 3⟩, timestamp := 7 }

def c1state : ServiceState :=
  { state0 with
    cacheMetadata := [(getCacheKey region0 512 512, c1entry),
      (getCacheKey region0 512 512 ++ "_roads", c1entry),
      (getCacheKey region0 800 600, c1entry)]
    fsFiles := [joinPath state0.cacheDir "dem_cached.png",
      joinPath state0.cacheDir "roads_cached.png"] }

/-- Witness for the amended C1 on a cache that does hold entries for every
relevant key. -/
theorem C1_witness :
    (getDEMThumbnail env0 region0 512 512 ⟨some true, none⟩ c1state).1
      = demFreshValue env0 region0 512 512 false ∧
    (getRoadsThumbnail env0 region0 512 512 ⟨some true, none⟩ c1state).1
      = roadsFreshValue env0 region0 512 512 ∧
    (getElevationStats env0 region0 ⟨some true, none⟩ c1state).1
      = env0.statsResult region0 ∧
    (getElevationStats env0 region0 ⟨some true, none⟩ c1state).2.cacheMetadata
      = c1state.cacheMetadata ∧
    (getElevationStats env0 region0 ⟨some true, none⟩ c1state).2.diskMetadata
      = c1state.diskMetadata :=
  C1_amended_bypass env0 region0 512 512 ⟨some true, none⟩ c1state none rfl rfl

/-- The state after running the C2 scenario — two identical `demOnly`
calls from a fresh cache — used by the counterexample. -/
def c2AfterTwo : ServiceState :=
  (getDEMThumbnail env0 region0 512 512 ⟨none, some true⟩
    (getDEMThumbnail env0 region0 512 512 ⟨none, some true⟩ state0).2).2

/-- The state after the first call of the C2 scenario, written out. -/
def c2s1 : ServiceState :=
  { state0 with
    cacheMetadata := insertEntry state0.cacheMetadata (getCacheKey region0 512 512)
      (demOnlyEntry env0 (getCacheKey region0 512 512) ⟨0, 4400, 1200⟩)
    diskMetadata := some (insertEntry state0.cacheMetadata (getCacheKey region0 512 512)
      (demOnlyEntry env0 (getCacheKey region0 512 512) ⟨0, 4400, 1200⟩))
    fsFiles := [joinPath state0.cacheDir ("dem_" ++ getCacheKey region0 512 512 ++ ".png")]
    thumbCalls := 1
    evalCalls := 1
    downloads := 1
    saves := 1 }

theorem c2_run1_eq :
    getDEMThumbnail env0 region0 512 512 ⟨none, some true⟩ state0 =
      (Except.ok ("/images/earthengine/"
        ++ ("dem_" ++ getCacheKey region0 512 512 ++ ".png")), c2s1) := by
  rw [getDEMThumbnail_demOnly_miss env0 region0 512 512 ⟨none, some true⟩ state0
    ⟨0, 4400, 1200⟩ rfl rfl rfl rfl rfl rfl]
  simp [c2s1, state0, env0]

theorem c2_run2_eq :
    getDEMThumbnail env0 region0 512 512 ⟨none, some true⟩ c2s1 =
      (Except.ok ("/images/earthengine/"
        ++ ("dem_" ++ getCacheKey region0 512 512 ++ ".png")), c2s1) :=
  getDEMThumbnail_demOnly_hit env0 region0 512 512 c2s1 ⟨0, 4400, 1200⟩ rfl rfl
    (by simp [c2s1, state0, lookupEntry_insert_self])
    (by simp [c2s1, state0, existsFile, joinPath])

/-- C2 counterexample: the two calls issue exactly one download, but TWO
provider interactions in total — one thumbnail render request plus one
statistics `evaluate` query issued by the first call — so "exactly one
provider call in total" fails. -/
theorem C2_counterexample :
    c2AfterTwo.downloads = 1 ∧ c2AfterTwo.thumbCalls + c2AfterTwo.evalCalls = 2 := by
  unfold c2AfterTwo
  simp only [c2_run1_eq]
  simp only [c2_run2_eq]
  simp [c2s1]

/-- C2 (amended) : from a fresh key, the first `demOnly` call issues
exactly one thumbnail render provider call, one statistics evaluation
provider call and one download; the second identical call returns the
identical URL and is a pure cache hit — the state, and with it every
interaction counter, is unchanged. -/
theorem C2_amended_idempotence (env : Env) (region : Region) (s : ServiceState) (st : Stats)
    (hs : s.initialized = true)
    (hc : s.configSkipCache = none)
    (hm : lookupEntry s.cacheMetadata (getCacheKey region 512 512) = none)
    (hthumb : env.demThumbFails = false)
    (hdl : env.downloadOk (env.demThumbURL region 512 512) = true)
    (hres : env.statsResult region = Except.ok st) :
    (getDEMThumbnail env region 512 512 ⟨none, some true⟩ s).2.thumbCalls
      = s.thumbCalls + 1 ∧
    (getDEMThumbnail env region 512 512 ⟨none, some true⟩ s).2.evalCalls
      = s.evalCalls + 1 ∧
    (getDEMThumbnail env region 512 512 ⟨none, some true⟩ s).2.downloads
      = s.downloads + 1 ∧
    getDEMThumbnail env region 512 512 ⟨none, some true⟩
        (getDEMThumbnail env region 512 512 ⟨none, some true⟩ s).2
      = ((getDEMThumbnail env region 512 512 ⟨none, some true⟩ s).1,
         (getDEMThumbnail env region 512 512 ⟨none, some true⟩ s).2) := by
  have hmiss : demCacheHit s (lookupEntry s.cacheMetadata (getCacheKey region 512 512)) true
      (shouldSkipCache s ⟨none, some true⟩) = none := by
    have : shouldSkipCache s ⟨none, some true⟩ = false := by simp [shouldSkipCache, hc]
    rw [hm, this]
    rfl
  have h1 := getDEMThumbnail_demOnly_miss env region 512 512 ⟨none, some true⟩ s st hs rfl
    hmiss hthumb hdl hres
  refine ⟨by rw [h1], by rw [h1], by rw [h1], ?_⟩
  rw [h1]
  exact getDEMThumbnail_demOnly_hit env region 512 512 _ st (by simp [hs]) (by simp [hc])
    (by simp [lookupEntry_insert_self]) (by simp [existsFile, joinPath])

/-- Witness for the amended C2 at concrete inputs. -/
theorem C2_witness :
    (getDEMThumbnail env0 region0 512 512 ⟨none, some true⟩ state0).2.thumbCalls
      = state0.thumbCalls + 1 ∧
    (getDEMThumbnail env0 region0 512 512 ⟨none, some true⟩ state0).2.evalCalls
      = state0.evalCalls + 1 ∧
    (getDEMThumbnail env0 region0 512 512 ⟨none, some true⟩ state0).2.downloads
      = state0.downloads + 1 ∧
    getDEMThumbnail env0 region0 512 512 ⟨none, some true⟩
        (getDEMThumbnail env0 region0 512 512 ⟨none, some true⟩ state0).2
      = ((getDEMThumbnail env0 region0 512 512 ⟨none, some true⟩ state0).1,
         (getDEMThumbnail env0 region0 512 512 ⟨none, some true⟩ state0).2) :=
  C2_amended_idempotence env0 region0 state0 ⟨0, 4400, 1200⟩ rfl rfl rfl rfl rfl rfl

/-- C10 counterexample: `getDEMThumbnail(region, 800, 600, demOnly)` on a
cache miss DOES populate the stats probe key — its own key is the probe
key — and the subsequent `getElevationStats` returns the cached stats with
the state untouched, so it does not recompute from the provider. -/
theorem C10_counterexample :
    ((lookupEntry (getDEMThumbnail env0 region0 800 600 ⟨none, some true⟩ state0).2.cacheMetadata
        (getCacheKey region0 800 600)).bind CacheEntry.stats).isSome = true ∧
    getElevationStats env0 region0 {}
        (getDEMThumbnail env0 region0 800 600 ⟨none, some true⟩ state0).2
      = (Except.ok ⟨0, 4400, 1200⟩,
         (getDEMThumbnail env0 region0 800 600 ⟨none, some true⟩ state0).2) := by
  have h1 := getDEMThumbnail_demOnly_miss env0 region0 800 600 ⟨none, some true⟩ state0
    ⟨0, 4400, 1200⟩ rfl rfl rfl rfl rfl rfl
  constructor
  · rw [h1]
    simp [state0, lookupEntry_insert_self, demOnlyEntry]
  · rw [h1]
    apply getElevationStats_cachedHit
    · simp [state0]
    · simp [shouldSkipCache, state0]
    · simp [state0, lookupEntry_insert_self, demOnlyEntry]

/-- C10 (amended) : every cache-miss path of `getDEMThumbnail` fetches
stats with the cache bypassed and stores them only under its own key, so
whenever that key differs from the fixed 800×600 probe key the probe entry
is untouched and a subsequent `getElevationStats` performs a provider
evaluation; at exactly 800×600 the two keys coincide and the probe entry
IS updated (the counterexample). -/
theorem C10_amended_probe_frame (env : Env) (region : Region) (width height : Nat)
    (o o' : CacheOptions) (s : ServiceState)
    (hk : getCacheKey region width height ≠ getCacheKey region 800 600)
    (hs : s.initialized = true)
    (hp : (lookupEntry s.cacheMetadata (getCacheKey region 800 600)).bind
        CacheEntry.stats = none) :
    lookupEntry (getDEMThumbnail env region width height o s).2.cacheMetadata
        (getCacheKey region 800 600)
      = lookupEntry s.cacheMetadata (getCacheKey region 800 600) ∧
    (getElevationStats env region o'
        (getDEMThumbnail env region width height o s).2).2.evalCalls
      = (getDEMThumbnail env region width height o s).2.evalCalls + 1 := by
  have hframe := getDEMThumbnail_frame env region width height o s _ (Ne.symm hk)
  refine ⟨hframe, ?_⟩
  apply getElevationStats_recomputes
  · rw [(getDEMThumbnail_preserves env region width height o s).1, hs]
  · rw [hframe, hp]

/-- Whenever the probe-key stats are either absent or equal to the
provider's (successful) outcome, the stats value returned is that
outcome. -/
theorem getElevationStats_val_consistent (env : Env) (region : Region) (o : CacheOptions)
    (s1 : ServiceState) (st : Stats)
    (hs : s1.initialized = true)
    (hskip : shouldSkipCache s1 o = false)
    (hres : env.statsResult region = Except.ok st)
    (hst : (lookupEntry s1.cacheMetadata (getCacheKey region 800 600)).bind
          CacheEntry.stats = none
        ∨ (lookupEntry s1.cacheMetadata (getCacheKey region 800 600)).bind
          CacheEntry.stats = some st) :
    (getElevationStats env region o s1).1 = Except.ok st := by
  cases hst with
  | inl hnone => rw [getElevationStats_val_of_probe_none env region o s1 hs hnone, hres]
  | inr hsome => rw [getElevationStats_cachedHit env region o s1 st hs hskip hsome]

/-- C4 : `getElevationStats` keys the cache on the fixed `(region, 800,
600)` probe tuple; a cache hit requires an entry with a present stats
field (and returns it, state untouched), an entry without stats forces a
provider evaluation, and the stats value returned right after a prior
`getDEMThumbnail` of the same region is the same — the provider's outcome
— whatever width and height that prior thumbnail call used. -/
theorem C4_stats_resolution_independence (env : Env) (region : Region) :
    (∀ (o : CacheOptions) (s : ServiceState) (st : Stats), s.initialized = true →
      shouldSkipCache s o = false →
      (lookupEntry s.cacheMetadata (getCacheKey region 800 600)).bind CacheEntry.stats
        = some st →
      getElevationStats env region o s = (Except.ok st, s)) ∧
    (∀ (o : CacheOptions) (s : ServiceState), s.initialized = true →
      (lookupEntry s.cacheMetadata (getCacheKey region 800 600)).bind CacheEntry.stats
        = none →
      (getElevationStats env region o s).2.evalCalls = s.evalCalls + 1) ∧
    (∀ (s : ServiceState) (st : Stats) (w h w' h' : Nat),
      s.initialized = true → s.configSkipCache = none →
      lookupEntry s.cacheMetadata (getCacheKey region 800 600) = none →
      env.demThumbFails = false →
      env.downloadOk (env.demThumbURL region w h) = true →
      env.downloadOk (env.demThumbURL region w' h') = true →
      demCacheHit s (lookupEntry s.cacheMetadata (getCacheKey region w h)) true
        (shouldSkipCache s ⟨none, some true⟩) = none →
      demCacheHit s (lookupEntry s.cacheMetadata (getCacheKey region w' h')) true
        (shouldSkipCache s ⟨none, some true⟩) = none →
      env.statsResult region = Except.ok st →
      (getElevationStats env region {}
          (getDEMThumbnail env region w h ⟨none, some true⟩ s).2).1 = Except.ok st ∧
      (getElevationStats env region {}
          (getDEMThumbnail env region w' h' ⟨none, some true⟩ s).2).1 = Except.ok st) := by
  refine ⟨fun o s st hs hskip hstats =>
      getElevationStats_cachedHit env region o s st hs hskip hstats,
    fun o s hs hnone => getElevationStats_recomputes env region o s hs hnone, ?_⟩
  intro s st w h w' h' hs hc hp hthumb hdlw hdlw' hmiss hmiss' hres
  have key : ∀ (a b : Nat), env.downloadOk (env.demThumbURL region a b) = true →
      demCacheHit s (lookupEntry s.cacheMetadata (getCacheKey region a b)) true
        (shouldSkipCache s ⟨none, some true⟩) = none →
      (getElevationStats env region {}
          (getDEMThumbnail env region a b ⟨none, some true⟩ s).2).1 = Except.ok st := by
    intro a b hdl hmiss0
    rw [getDEMThumbnail_demOnly_miss env region a b ⟨none, some true⟩ s st hs rfl hmiss0
      hthumb hdl hres]
    apply getElevationStats_val_consistent
    · simp [hs]
    · simp [shouldSkipCache, hc]
    · exact hres
    · by_cases hkey : getCacheKey region a b = getCacheKey region 800 600
      · right
        simp [hkey, lookupEntry_insert_self, demOnlyEntry]
      · left
        simp [lookupEntry_insert_ne _ _ _ _ hkey, hp]
  exact ⟨key w h hdlw hmiss, key w' h' hdlw' hmiss'⟩

/-- A probe-key entry with cached stats, used by the C4 witness. -/
def c4state : ServiceState :=
  { state0 with cacheMetadata := [(getCacheKey region0 800 600,
      { imageFilename := some "", stats := some ⟨9, 99, 50⟩, timestamp := 3 })] }

/-- Witness for C4 at concrete inputs: a cached hit, and the
size-independence of the value after 512×512 versus 1024×768 thumbnail
runs. -/
theorem C4_witness :
    getElevationStats env0 region0 {} c4state = (Except.ok ⟨9, 99, 50⟩, c4state) ∧
    (getElevationStats env0 region0 {}
        (getDEMThumbnail env0 region0 512 512 ⟨none, some true⟩ state0).2).1
      = Except.ok ⟨0, 4400, 1200⟩ ∧
    (getElevationStats env0 region0 {}
        (getDEMThumbnail env0 region0 1024 768 ⟨none, some true⟩ state0).2).1
      = Except.ok ⟨0, 4400, 1200⟩ := by
  obtain ⟨h1, _, h3⟩ := C4_stats_resolution_independence env0 region0
  refine ⟨h1 {} c4state ⟨9, 99, 50⟩ rfl rfl ?_, ?_⟩
  · simp [c4state, lookupEntry]
  · exact h3 state0 ⟨0, 4400, 1200⟩ 512 512 1024 768 rfl rfl rfl rfl rfl rfl rfl rfl rfl

/-- An entry holding both artifact filenames, used by the C7
counterexample. -/
def c7entry : CacheEntry :=
  { imageFilename := some ("dem_" ++ getCacheKey region0 512 512 ++ ".png"),
    compositeImageFilename := some ("dem_roads_" ++ getCacheKey region0 512 512 ++ ".png"),
    stats := some ⟨0, 4400, 1200⟩, timestamp := 5 }

def c7state : ServiceState :=
  { state0 with cacheMetadata := [(getCacheKey region0 512 512, c7entry)] }

/-- C7 counterexample: the `demOnly` write replaces the whole entry, so a
key whose entry held a `compositeImageFilename` loses that field — entry
fields are not only-added. -/
theorem C7_counterexample :
    ((lookupEntry c7state.cacheMetadata (getCacheKey region0 512 512)).bind
        CacheEntry.compositeImageFilename).isSome = true ∧
    (lookupEntry (getDEMThumbnail env0 region0 512 512 ⟨some true, some true⟩
          c7state).2.cacheMetadata
        (getCacheKey region0 512 512)).bind CacheEntry.compositeImageFilename = none := by
  constructor
  · simp [c7state, c7entry, lookupEntry]
  · rw [getDEMThumbnail_demOnly_miss env0 region0 512 512 ⟨some true, some true⟩ c7state
      ⟨0, 4400, 1200⟩ rfl rfl rfl rfl rfl rfl]
    simp [lookupEntry_insert_self, demOnlyEntry]

/-- C7 (amended) : the three scenarios of the claim do hold observably —
`getElevationStats` merges stats into an existing probe-key entry keeping
every other field, a DEM-only fetch stores `imageFilename`, and a later
composite fetch for the same key stores `compositeImageFilename` while
`imageFilename` survives (it is re-written with the identical value) — but
thumbnail-path writes replace the whole entry rather than adding fields,
so in other orders fields are removed (the counterexample drops
`compositeImageFilename`). -/
theorem C7_amended_field_evolution (env : Env) (region : Region) :
    (∀ (o : CacheOptions) (s : ServiceState) (entry : CacheEntry) (v : Stats),
      s.initialized = true → shouldSkipCache s o = false →
      lookupEntry s.cacheMetadata (getCacheKey region 800 600) = some entry →
      entry.stats = none →
      env.statsResult region = Except.ok v →
      lookupEntry (getElevationStats env region o s).2.cacheMetadata
          (getCacheKey region 800 600)
        = some { entry with stats := some v }) ∧
    (∀ (s : ServiceState) (st : Stats) (w h : Nat),
      s.initialized = true → s.configSkipCache = none →
      demCacheHit s (lookupEntry s.cacheMetadata (getCacheKey region w h)) true
        (shouldSkipCache s ⟨none, some true⟩) = none →
      env.demThumbFails = false →
      env.downloadOk (env.demThumbURL region w h) = true →
      env.compositeThumbFails = false →
      env.downloadOk (env.compositeThumbURL region w h env.roadsBuildFails) = true →
      env.statsResult region = Except.ok st →
      lookupEntry (getDEMThumbnail env region w h ⟨none, some true⟩ s).2.cacheMetadata
          (getCacheKey region w h)
        = some (demOnlyEntry env (getCacheKey region w h) st) ∧
      lookupEntry (getDEMThumbnail env region w h ⟨some true, none⟩
            (getDEMThumbnail env region w h ⟨none, some true⟩ s).2).2.cacheMetadata
          (getCacheKey region w h)
        = some (compositeEntry env (getCacheKey region w h) st) ∧
      (compositeEntry env (getCacheKey region w h) st).imageFilename
        = (demOnlyEntry env (getCacheKey region w h) st).imageFilename ∧
      (compositeEntry env (getCacheKey region w h) st).compositeImageFilename
        = some ("dem_roads_" ++ getCacheKey region w h ++ ".png")) := by
  constructor
  · intro o s entry v hs hskip hentry hstats hres
    rw [getElevationStats_merge env region o s entry v hs hskip hentry hstats hres]
    simp [lookupEntry_insert_self]
  · intro s st w h hs hc hmiss hthumb hdl hcomp hdl2 hres
    have hrun1 := getDEMThumbnail_demOnly_miss env region w h ⟨none, some true⟩ s st hs rfl
      hmiss hthumb hdl hres
    have hpres := getDEMThumbnail_preserves env region w h ⟨none, some true⟩ s
    have hs1 : (getDEMThumbnail env region w h ⟨none, some true⟩ s).2.initialized = true := by
      rw [hpres.1, hs]
    have hmiss2 : demCacheHit (getDEMThumbnail env region w h ⟨none, some true⟩ s).2
        (lookupEntry (getDEMThumbnail env region w h ⟨none, some true⟩ s).2.cacheMetadata
          (getCacheKey region w h))
        false
        (shouldSkipCache (getDEMThumbnail env region w h ⟨none, some true⟩ s).2
          ⟨some true, none⟩) = none := by
      have hsk : shouldSkipCache (getDEMThumbnail env region w h ⟨none, some true⟩ s).2
          ⟨some true, none⟩ = true := rfl
      rw [hsk]
      rfl
    refine ⟨?_, ?_, rfl, rfl⟩
    · rw [hrun1]
      simp [lookupEntry_insert_self]
    · rw [getDEMThumbnail_composite_miss env region w h ⟨some true, none⟩
        (getDEMThumbnail env region w h ⟨none, some true⟩ s).2 st hs1 rfl hmiss2 hthumb hdl
        hcomp hdl2 hres]
      simp [lookupEntry_insert_self]

/-- A probe-key entry without stats, used by the C7 witness. -/
def c7probeState : ServiceState :=
  { state0 with cacheMetadata := [(getCacheKey region0 800 600,
      { imageFilename := some "probe.png", timestamp := 2 })] }

/-- Witness for the amended C7 at concrete inputs. -/
theorem C7_witness :
    lookupEntry (getElevationStats env0 region0 {} c7probeState).2.cacheMetadata
        (getCacheKey region0 800 600)
      = some ⟨some "probe.png", none, none, some ⟨0, 4400, 1200⟩, 2⟩ ∧
    lookupEntry (getDEMThumbnail env0 region0 512 512 ⟨some true, none⟩
          (getDEMThumbnail env0 region0 512 512 ⟨none, some true⟩ state0).2).2.cacheMetadata
        (getCacheKey region0 512 512)
      = some (compositeEntry env0 (getCacheKey region0 512 512) ⟨0, 4400, 1200⟩) := by
  obtain ⟨h1, h2⟩ := C7_amended_field_evolution env0 region0
  refine ⟨h1 {} c7probeState { imageFilename := some "probe.png", timestamp := 2 }
    ⟨0, 4400, 1200⟩ rfl rfl ?_ rfl rfl, ?_⟩
  · simp [c7probeState, lookupEntry]
  · exact (h2 state0 ⟨0, 4400, 1200⟩ 512 512 rfl rfl rfl rfl rfl rfl rfl rfl).2.1

/-- Witness for the amended C10 at concrete inputs (512×512 versus the
800×600 probe, with the key inequality established by evaluation). -/
theorem C10_witness :
    lookupEntry (getDEMThumbnail env0 region0 512 512 ⟨none, some true⟩ state0).2.cacheMetadata
        (getCacheKey region0 800 600)
      = lookupEntry state0.cacheMetadata (getCacheKey region0 800 600) ∧
    (getElevationStats env0 region0 {}
        (getDEMThumbnail env0 region0 512 512 ⟨none, some true⟩ state0).2).2.evalCalls
      = (getDEMThumbnail env0 region0 512 512 ⟨none, some true⟩ state0).2.evalCalls + 1 :=
  C10_amended_probe_frame env0 region0 512 512 ⟨none, some true⟩ {} state0 (by decide) rfl rfl

end EE
